import Mathlib

/-!
Shallow embedding of the acme-ehr resource-processing pipeline:
path resolution (`get_nested_value`), field extraction
(`extract_fields_from_resource`, `process_resource`), validation
(`validate_resource`), projection (`project_fields`), transformation
(`apply_transformations`) and batch persistence (`save_resources_batch`),
together with theorems about the behaviour of those functions.
-/

/-- A JSON-like value: the dynamic record shape handled by the pipeline.
Python `None` and JSON `null` are the same value (`Json.null`); mappings are
insertion-ordered key/value lists, as Python dicts are. -/
inductive Json where
  | null : Json
  | bool (b : Bool) : Json
  | num (n : Int) : Json
  | str (s : String) : Json
  | arr (elems : List Json) : Json
  | obj (fields : List (String × Json)) : Json

mutual

/-- Structural (Python `==`) equality test on JSON values. -/
def Json.beq : Json → Json → Bool
  | .null, .null => true
  | .bool a, .bool b => a = b
  | .num a, .num b => a = b
  | .str a, .str b => a = b
  | .arr xs, .arr ys => Json.beqList xs ys
  | .obj xs, .obj ys => Json.beqObjList xs ys
  | _, _ => false

/-- Elementwise equality test on JSON arrays. -/
def Json.beqList : List Json → List Json → Bool
  | [], [] => true
  | x :: xs, y :: ys => Json.beq x y && Json.beqList xs ys
  | _, _ => false

/-- Entrywise equality test on JSON objects. -/
def Json.beqObjList : List (String × Json) → List (String × Json) → Bool
  | [], [] => true
  | (k1, v1) :: xs, (k2, v2) :: ys =>
    k1 = k2 && Json.beq v1 v2 && Json.beqObjList xs ys
  | _, _ => false

end

instance : BEq Json := ⟨Json.beq⟩

/-- Python truthiness of a JSON value: `None`, `False`, `0`, `""`, `[]`
and `{}` are falsy, everything else truthy. -/
def Json.isTruthy : Json → Bool
  | .null => false
  | .bool b => b
  | .num n => n != 0
  | .str s => s != ""
  | .arr elems => !elems.isEmpty
  | .obj fields => !fields.isEmpty

/-- `d.get(k)`: first value bound to `k`, `null` (Python `None`) if absent. -/
def objGet (fields : List (String × Json)) (k : String) : Json :=
  match fields with
  | [] => .null
  | (k0, v) :: rest => if k0 = k then v else objGet rest k

/-- `k in d`: whether `k` is a key of the mapping. -/
def containsKey (fields : List (String × Json)) (k : String) : Bool :=
  match fields with
  | [] => false
  | (k0, _) :: rest => k0 = k || containsKey rest k

/-- `d[k] = v` on a Python dict: update the existing binding in place, or
append a new one, preserving insertion order. -/
def objInsert (fields : List (String × Json)) (k : String) (v : Json) :
    List (String × Json) :=
  match fields with
  | [] => [(k, v)]
  | (k0, v0) :: rest =>
    if k0 = k then (k0, v) :: rest else (k0, v0) :: objInsert rest k v

/-- Whether the value is `null` (Python `is None`). -/
def Json.isNull : Json → Bool
  | .null => true
  | _ => false

/-- ASCII whitespace, the characters stripped by Python `str.strip()`. -/
def isPyWhitespace (c : Char) : Bool :=
  c = ' ' || c = '\t' || c = '\n' || c = '\x0d' || c = '\x0b' || c = '\x0c'

/-- Python `str.strip()`: drop leading and trailing whitespace. -/
def pyStrip (s : String) : String :=
  String.mk (((s.toList.dropWhile isPyWhitespace).reverse.dropWhile
    isPyWhitespace).reverse)

/-- Split a character list at every character satisfying `p`, keeping empty
groups (the behaviour of Python `str.split(sep)` and `re.split`). -/
def splitListOnP (p : Char → Bool) : List Char → List (List Char)
  | [] => [[]]
  | c :: cs =>
    match splitListOnP p cs with
    | [] => [[]]
    | g :: gs => if p c then [] :: g :: gs else (c :: g) :: gs

/-- Python `s.split(sep)` for a one-character separator. -/
def pySplit (sep : Char) (s : String) : List String :=
  (splitListOnP (fun c => c = sep) s.toList).map (fun cs => String.mk cs)

/-- `part.endswith(']')`: the last character is `]`. -/
def endsWithBracket (s : String) : Bool :=
  match s.toList.getLast? with
  | some c => c = ']'
  | none => false

/-- Python `str.lower()` (ASCII). -/
def pyLower (s : String) : String :=
  String.mk (s.toList.map Char.toLower)

/-- `s.startswith(pre)`. -/
def pyStartsWith (s pre : String) : Bool :=
  List.isPrefixOf pre.toList s.toList

/-- Accumulate the value of a decimal digit run; `none` on a non-digit. -/
def digitsValGo : List Char → Nat → Option Nat
  | [], acc => some acc
  | c :: rest, acc =>
    if c.isDigit then digitsValGo rest (10 * acc + (c.toNat - 48)) else none

/-- Value of a non-empty decimal digit run, `none` otherwise. -/
def digitsVal (cs : List Char) : Option Nat :=
  if cs.isEmpty then none else digitsValGo cs 0

/-- Python `int(s)` on a decimal string literal: optional surrounding
whitespace, optional sign, then decimal digits; `none` models the
`ValueError` raised for anything else. -/
def pyInt (s : String) : Option Int :=
  match (pyStrip s).toList with
  | '-' :: rest => (digitsVal rest).map (fun n => -(n : Int))
  | '+' :: rest => (digitsVal rest).map (fun n => (n : Int))
  | cs => (digitsVal cs).map (fun n => (n : Int))

/-- Python list indexing `xs[idx]` with negative-index wraparound; `none`
models the `IndexError` raised when the index is out of range. -/
def pyListGet (xs : List Json) (idx : Int) : Option Json :=
  if 0 ≤ idx then xs.get? idx.toNat
  else if 0 ≤ (xs.length : Int) + idx then xs.get? ((xs.length : Int) + idx).toNat
  else none

/-- `re.split(r'\.|\[', path)`: split the path at every dot or opening
bracket, keeping empty segments. -/
def rePathSplit (path : String) : List String :=
  (splitListOnP (fun c => c = '.' || c = '[') path.toList).map
    (fun cs => String.mk cs)

/-- The segment loop of `get_nested_value` (extractor_service.py): empty
segments and a `None` current value are skipped; a segment ending in `]`
is an index step whose parse failure or wraparound `IndexError` returns
`None`; a key step on a non-mapping returns `None`. -/
def resolveParts : Json → List String → Json
  | cur, [] => cur
  | cur, p :: rest =>
    if p = "" || cur.isNull then resolveParts cur rest
    else if endsWithBracket p then
      match pyInt (p.dropRight 1) with
      | none => Json.null
      | some idx =>
        match cur with
        | .arr xs =>
          if idx < (xs.length : Int) then
            match pyListGet xs idx with
            | some v => resolveParts v rest
            | none => Json.null
          else resolveParts Json.null rest
        | _ => resolveParts Json.null rest
    else
      match cur with
      | .obj kvs => resolveParts (objGet kvs p) rest
      | _ => Json.null

/-- `get_nested_value(data, path)` (extractor_service.py): resolve a
dotted/bracketed path against a nested value; falsy data or an empty path
resolves to `None`. -/
def get_nested_value (data : Json) (path : String) : Json :=
  if !data.isTruthy || path = "" then Json.null
  else resolveParts data (rePathSplit path)

/-- An entry of `EXTRACTION_CONFIG`: the `"all"` sentinel or an explicit
list of resource types. -/
inductive FieldScope where
  | allTypes : FieldScope
  | types (ts : List String) : FieldScope

/-- `EXTRACTION_CONFIG` (extraction_config.py), in source order. -/
def EXTRACTION_CONFIG : List (String × FieldScope) :=
  [("id", .allTypes),
   ("resourceType", .allTypes),
   ("subject", .allTypes),
   ("code", .allTypes),
   ("status", .types ["Observation", "Procedure", "Condition", "MedicationRequest"]),
   ("effectiveDateTime", .types ["Observation"]),
   ("valueQuantity", .types ["Observation"]),
   ("component", .types ["Observation"]),
   ("performedDateTime", .types ["Procedure"]),
   ("performedPeriod", .types ["Procedure"]),
   ("onsetDateTime", .types ["Condition"]),
   ("clinicalStatus", .types ["Condition"]),
   ("medicationCodeableConcept", .types ["MedicationRequest"]),
   ("dosageInstruction", .types ["MedicationRequest"]),
   ("authoredOn", .types ["MedicationRequest"])]

/-- `get_extractable_fields(resource_type)` (extraction_config.py): the
config keys whose scope is the `"all"` sentinel or contains the resource
type (Python `in` on a string list matches only equal strings). -/
def get_extractable_fields (resource_type : Json) : List String :=
  (EXTRACTION_CONFIG.filter (fun entry =>
    match entry.2 with
    | .allTypes => true
    | .types ts =>
      match resource_type with
      | .str s => ts.contains s
      | _ => false)).map Prod.fst

/-- One iteration of the extraction loop of `extract_fields_from_resource`
(extractor_service.py): take the field from the top level if the key
exists, else fall back to `get_nested_value`, keeping only non-`None`
fallback values. -/
def extractStep (kvs : List (String × Json)) (acc : List (String × Json))
    (field : String) : List (String × Json) :=
  if containsKey kvs field then objInsert acc field (objGet kvs field)
  else
    let v := get_nested_value (Json.obj kvs) field
    if v.isNull then acc else objInsert acc field v

/-- `extract_fields_from_resource(resource)` (extractor_service.py):
non-mappings and resources with a falsy `resourceType` yield `{}`; the
configured fields are folded through `extractStep`. -/
def extract_fields_from_resource (resource : Json) : List (String × Json) :=
  match resource with
  | .obj kvs =>
    let rt := objGet kvs "resourceType"
    if !rt.isTruthy then []
    else (get_extractable_fields rt).foldl (extractStep kvs) []
  | _ => []

mutual

/-- Python `repr()` of a JSON value (strings quoted). -/
def pyRepr : Json → String
  | .null => "None"
  | .bool b => if b then "True" else "False"
  | .num n => toString n
  | .str s => "\x27" ++ s ++ "\x27"
  | .arr xs => "[" ++ String.intercalate ", " (pyReprList xs) ++ "]"
  | .obj kvs => "\x7b" ++ String.intercalate ", " (pyReprObj kvs) ++ "\x7d"

/-- `repr()` of the elements of a JSON array. -/
def pyReprList : List Json → List String
  | [] => []
  | x :: xs => pyRepr x :: pyReprList xs

/-- `repr()` of the entries of a JSON object. -/
def pyReprObj : List (String × Json) → List String
  | [] => []
  | (k, v) :: kvs => ("\x27" ++ k ++ "\x27: " ++ pyRepr v) :: pyReprObj kvs

end

/-- Python `str()` of a JSON value (top-level strings unquoted). -/
def pyStr : Json → String
  | .str s => s
  | v => pyRepr v

/-- One entry of the validation rule table. -/
structure ValidationRule where
  required : List String
  valid_status : Option (List String)

/-- `VALIDATION_RULES` (validation_config.py), in source order. -/
def VALIDATION_RULES : List (String × ValidationRule) :=
  [("all", ⟨["id", "resourceType", "subject"], none⟩),
   ("Observation",
     ⟨["code", "status"], some ["final", "preliminary", "amended", "corrected"]⟩),
   ("MedicationRequest",
     ⟨["medicationCodeableConcept", "status"], some ["completed", "active", "final"]⟩),
   ("Procedure", ⟨["code", "status"], some ["completed", "active", "final"]⟩),
   ("Condition", ⟨["code"], none⟩)]

/-- The `f"Line {line_number}: Missing required field '{field}'"` message
of validator_service.py. -/
def missingFieldMsg (line_number : Nat) (f : String) : String :=
  s!"Line {line_number}: Missing required field \x27{f}\x27"

/-- `validate_resource(resource, line_number)` (validator_service.py):
universal key checks for `id`, `resourceType` and `subject`, then
hardcoded type-specific checks that fire only when `resourceType` equals
`"Observation"` or `"MedicationRequest"`. -/
def validate_resource (resource : List (String × Json)) (line_number : Nat) :
    List String :=
  let base := (["id", "resourceType", "subject"].filter
    (fun f => !containsKey resource f)).map (missingFieldMsg line_number)
  let rt := objGet resource "resourceType"
  let typed :=
    if Json.beq rt (.str "Observation") then
      let codeErrs :=
        if !containsKey resource "code" then
          [s!"Line {line_number}: Observation missing required field \x27code\x27"]
        else []
      let status := objGet resource "status"
      let statusErrs :=
        if !status.isTruthy then
          [s!"Line {line_number}: Observation missing required field \x27status\x27"]
        else if !(["final", "preliminary", "amended", "corrected"].any
            (fun v => Json.beq status (.str v))) then
          [s!"Line {line_number}: Invalid status \x27{pyStr status}\x27 for Observation"]
        else []
      codeErrs ++ statusErrs
    else if Json.beq rt (.str "MedicationRequest") then
      let medErrs :=
        if !containsKey resource "medicationCodeableConcept" then
          [s!"Line {line_number}: MedicationRequest missing required field \x27medicationCodeableConcept\x27"]
        else []
      let status := objGet resource "status"
      let statusErrs :=
        if !status.isTruthy then
          [s!"Line {line_number}: MedicationRequest missing required field \x27status\x27"]
        else if !(["active", "completed", "cancelled", "draft"].any
            (fun v => Json.beq status (.str v))) then
          [s!"Line {line_number}: Invalid status \x27{pyStr status}\x27 for MedicationRequest"]
        else []
      medErrs ++ statusErrs
    else []
  base ++ typed

/-- Result of `process_resource` (extractor_service.py). -/
structure ProcessedResource where
  extracted_fields : List (String × Json)
  resource_type : Json
  resource_id : Json
  patient_id : Json
  subject_reference : Json
  missing_field_warning : Option (Nat × String × String)

/-- Python `'/' in v`: substring test on a string, membership on a list,
key membership on a dict; a `TypeError` on anything else. -/
def slashIn : Json → Except String Bool
  | .str s => .ok (s.toList.contains '/')
  | .arr xs => .ok (xs.any (fun j => Json.beq j (.str "/")))
  | .obj kvs => .ok (kvs.any (fun kv => kv.1 = "/"))
  | _ => .error "TypeError: argument is not iterable"

/-- The patient-id derivation of `process_resource`: Python
`if subject_ref and '/' in subject_ref: patient_id = subject_ref.split('/')[-1]`
with `patient_id` defaulting to `None`. -/
def derivePatientId (subject_ref : Json) : Except String Json :=
  if subject_ref.isTruthy then
    match slashIn subject_ref with
    | .error e => .error e
    | .ok true =>
      match subject_ref with
      | .str s => .ok (.str ((pySplit '/' s).getLastD ""))
      | _ => .error "AttributeError: no attribute split"
    | .ok false => .ok Json.null
  else .ok Json.null

/-- Python `resource_type.lower() if resource_type else ''`: an
`AttributeError` on a truthy non-string. -/
def lowerResourceType (resource_type : Json) : Except String String :=
  if resource_type.isTruthy then
    match resource_type with
    | .str s => .ok (pyLower s)
    | _ => .error "AttributeError: no attribute lower"
  else .ok ""

/-- `process_resource(parsed_json, line_number)` (extractor_service.py):
extract fields, read `resourceType` and `id` (with the `unknown-<n>`
default), derive the subject reference and patient id, and compute the
per-type optional-field warning; exceptions Python would raise (on a
truthy non-string subject reference or resource type) are `.error`s. -/
def process_resource (parsed_json : List (String × Json)) (line_number : Nat) :
    Except String ProcessedResource :=
  let extracted := extract_fields_from_resource (.obj parsed_json)
  let resource_type := objGet parsed_json "resourceType"
  let resource_id :=
    if containsKey parsed_json "id" then objGet parsed_json "id"
    else Json.str s!"unknown-{line_number}"
  let subject := objGet extracted "subject"
  let subject_ref :=
    match subject with
    | .obj skvs => objGet skvs "reference"
    | _ => get_nested_value (.obj parsed_json) "subject.reference"
  match derivePatientId subject_ref with
  | .error e => .error e
  | .ok patient_id =>
  match lowerResourceType resource_type with
  | .error e => .error e
  | .ok rtLower =>
  let warning :=
    if rtLower = "observation" then
      if !containsKey extracted "effectiveDateTime" then
        some (line_number, "effectiveDateTime",
          "Observation missing optional field effectiveDateTime")
      else none
    else if rtLower = "medicationrequest" then
      if !containsKey extracted "authoredOn" then
        some (line_number, "authoredOn",
          "MedicationRequest missing optional field authoredOn")
      else none
    else none
  .ok ⟨extracted, resource_type, resource_id, patient_id, subject_ref, warning⟩

/-- One iteration of the projection loop of `project_fields`
(import_service.py): the field name is stripped, blanks are skipped, and
the field is emitted when nested resolution finds a non-`None` value or
the name is a literal top-level key (whose possibly-null value is then
used). -/
def projectStep (resource_data : List (String × Json))
    (projected : List (String × Json)) (field0 : String) :
    List (String × Json) :=
  let field := pyStrip field0
  if field = "" then projected
  else
    let value := get_nested_value (.obj resource_data) field
    if !value.isNull then objInsert projected field value
    else if containsKey resource_data field then
      objInsert projected field (objGet resource_data field)
    else projected

/-- `project_fields(resource_data, fields_list)` (import_service.py): an
empty field list is the identity projection, a falsy (empty) record
projects to `{}`, and otherwise the requested fields are folded through
`projectStep`. -/
def project_fields (resource_data : List (String × Json))
    (fields_list : List String) : List (String × Json) :=
  if fields_list.isEmpty then resource_data
  else if resource_data.isEmpty then []
  else fields_list.foldl (projectStep resource_data) []

/-- `parse_jsonl_file(file_content)` (parser_service.py), parameterized by
the external `json.loads`: strip the content, split it into lines, skip
blank lines, and yield `(line_number, parsed, error)` triples where a
decode failure yields an `Invalid JSON: ...` error message. -/
def parse_jsonl_file (loads : String → Except String Json)
    (file_content : String) : List (Nat × Json × Option String) :=
  (pySplit '\n' (pyStrip file_content)).enum.filterMap (fun p =>
    let line_number := p.1 + 1
    let line := p.2
    if pyStrip line = "" then none
    else
      match loads line with
      | .ok j => some (line_number, j, none)
      | .error e => some (line_number, Json.null, some ("Invalid JSON: " ++ e)))

/-- One entry of the import run's error list, tagged like the
`'type'` field of the dictionaries built in import_service.py. -/
inductive ImportErrorEntry where
  | parseErr (line_number : Nat) (error : String)
  | validationErr (line_number : Nat) (errors : List String)
  | processingErr (line_number : Nat) (error : String)
  deriving DecidableEq

/-- The `'type'` tag of an import error entry. -/
def ImportErrorEntry.tag : ImportErrorEntry → String
  | .parseErr .. => "parse_error"
  | .validationErr .. => "validation_error"
  | .processingErr .. => "processing_error"

/-- One element of `resources_to_save` (import_service.py). -/
structure ResourceToSave where
  resource_type : Json
  subject_reference : Json
  raw_data : List (String × Json)
  extracted_fields : List (String × Json)

/-- The running counters and accumulators of one import run
(import_service.py). -/
structure ImportState where
  total_lines : Nat
  successful : Nat
  failed : Nat
  validation_errors : List ImportErrorEntry
  resource_type_counts : List (Json × Nat)
  unique_patients : List String
  missing_optional_fields : List (Json × List (Nat × String × String))
  resources_to_save : List ResourceToSave

/-- The all-zero initial import state. -/
def initImportState : ImportState := ⟨0, 0, 0, [], [], [], [], []⟩

/-- `resource_type_counts[rt] += 1` on a `defaultdict(int)` keyed by the
resource type value. -/
def bumpCount (counts : List (Json × Nat)) (k : Json) : List (Json × Nat) :=
  match counts with
  | [] => [(k, 1)]
  | (k0, n) :: rest =>
    if Json.beq k0 k then (k0, n + 1) :: rest else (k0, n) :: bumpCount rest k

/-- `unique_patients.add(patient_id)` guarded by `if patient_id:`
(a truthiness test), modelled as an insertion-ordered duplicate-free list. -/
def addPatient (ps : List String) (pid : Json) : List String :=
  match pid with
  | .str s => if s = "" then ps else if ps.contains s then ps else ps ++ [s]
  | _ => ps

/-- `missing_optional_fields[rt].append(warning)` on a
`defaultdict(list)`. -/
def addWarning (m : List (Json × List (Nat × String × String))) (k : Json)
    (w : Nat × String × String) : List (Json × List (Nat × String × String)) :=
  match m with
  | [] => [(k, [w])]
  | (k0, ws) :: rest =>
    if Json.beq k0 k then (k0, ws ++ [w]) :: rest else (k0, ws) :: addWarning rest k w

/-- One iteration of the per-line loop of `import_fhir_data`
(import_service.py): count the line; record a parse error; silently skip a
`null` parse; otherwise validate (a non-mapping would raise out of the
loop, since `validate_resource` is called outside the `try`), record
validation errors, and on success process the resource inside the `try`,
updating statistics and the batch to save, with a raised processing
exception recorded as a `processing_error`. -/
def importStep (st : ImportState) (entry : Nat × Json × Option String) :
    Except String ImportState :=
  let line_number := entry.1
  let parsed := entry.2.1
  let st := { st with total_lines := st.total_lines + 1 }
  match entry.2.2 with
  | some e =>
    .ok { st with
          failed := st.failed + 1,
          validation_errors := st.validation_errors ++ [.parseErr line_number e] }
  | none =>
    if parsed.isNull then .ok st
    else
      match parsed with
      | .obj kvs =>
        let verrs := validate_resource kvs line_number
        if !verrs.isEmpty then
          .ok { st with
                failed := st.failed + 1,
                validation_errors :=
                  st.validation_errors ++ [.validationErr line_number verrs] }
        else
          match process_resource kvs line_number with
          | .ok processed =>
            .ok { st with
                  successful := st.successful + 1,
                  resource_type_counts :=
                    bumpCount st.resource_type_counts processed.resource_type,
                  unique_patients :=
                    addPatient st.unique_patients processed.patient_id,
                  missing_optional_fields :=
                    match processed.missing_field_warning with
                    | some w =>
                      addWarning st.missing_optional_fields processed.resource_type w
                    | none => st.missing_optional_fields,
                  resources_to_save := st.resources_to_save ++
                    [⟨processed.resource_type, processed.subject_reference, kvs,
                      processed.extracted_fields⟩] }
          | .error e =>
            .ok { st with
                  failed := st.failed + 1,
                  validation_errors := st.validation_errors ++
                    [.processingErr line_number ("Error processing resource: " ++ e)] }
      | _ => .error "TypeError: argument is not iterable"

/-- Left fold of `importStep` over the parsed lines, propagating the
exception a non-mapping line raises out of the loop. -/
def importLoop (st : ImportState) :
    List (Nat × Json × Option String) → Except String ImportState
  | [] => .ok st
  | entry :: rest =>
    match importStep st entry with
    | .error e => .error e
    | .ok st2 => importLoop st2 rest

/-- The per-line processing loop of `import_fhir_data(jsonl_content)`
(import_service.py lines 78-143): fold `importStep` over the parser's
output; the resulting state carries the totals, error list, statistics
and the batch later handed to `save_resources_batch`. -/
def import_fhir_data (loads : String → Except String Json)
    (jsonl_content : String) : Except String ImportState :=
  importLoop initImportState (parse_jsonl_file loads jsonl_content)

/-- One persisted `fhir_resources` row (config/database.py). -/
structure StoredRow where
  resource_type : Json
  subject_reference : Json
  raw_data : Json
  extracted_fields : Json

/-- Python `d[k]`: the bound value, or a `KeyError`. -/
def pyGetItem (d : List (String × Json)) (k : String) : Except String Json :=
  if containsKey d k then .ok (objGet d k) else .error ("KeyError: " ++ k)

/-- Construction of one `FHIRResource(...)` row inside
`save_resources_batch` (resource_service.py): bracket lookups may raise
`KeyError`; `subject_reference` uses `.get`. -/
def buildRow (resource_data : List (String × Json)) : Except String StoredRow :=
  match pyGetItem resource_data "resource_type" with
  | .error e => .error e
  | .ok rt =>
    let sr := objGet resource_data "subject_reference"
    match pyGetItem resource_data "raw_data" with
    | .error e => .error e
    | .ok raw =>
      match pyGetItem resource_data "extracted_fields" with
      | .error e => .error e
      | .ok ex => .ok ⟨rt, sr, raw, ex⟩

/-- The `session.add` loop of `save_resources_batch`: stage a row per
batch element, failing on the first element that raises. -/
def stageBatch : List (List (String × Json)) → Except String (List StoredRow)
  | [] => .ok []
  | r :: rest =>
    match buildRow r with
    | .error e => .error e
    | .ok row =>
      match stageBatch rest with
      | .error e => .error e
      | .ok rows => .ok (row :: rows)

/-- `save_resources_batch(resources)` (resource_service.py) acting on a
stored-row table: every staged row is inserted by one `session.commit()`;
any exception triggers `session.rollback()` and re-raises, leaving the
table unchanged. `commitFails` injects a storage-layer commit failure.
Returns `(propagated exception?, table after the call)`. -/
def save_resources_batch (db : List StoredRow)
    (resources : List (List (String × Json))) (commitFails : Bool) :
    Option String × List StoredRow :=
  match stageBatch resources with
  | .error e => (some e, db)
  | .ok pending =>
    if commitFails then (some "OperationalError: commit failed", db)
    else (none, db ++ pending)

/-- `rstrip(']')`: drop all trailing `]` characters. -/
def rstripBracket (s : String) : String :=
  String.mk (s.toList.reverse.dropWhile (fun c => c = ']')).reverse

/-- The navigation loop of `flatten_field` (transformer_service.py):
`.ok none` models the early `return result` on a falsy current value;
errors model the uncaught `ValueError` of `int(...)`, the `IndexError`
of a negative wrapped index, and the `AttributeError` of `.get` on a
non-mapping in the bracket branch. -/
def flattenNav : Json → List String → Except String (Option Json)
  | current, [] => .ok (some current)
  | current, part :: rest =>
    if !current.isTruthy then .ok none
    else if part.toList.contains '[' then
      let segs := pySplit '[' part
      let key := segs.headD ""
      let idxStr := (segs.drop 1).headD ""
      match pyInt (rstripBracket idxStr) with
      | none => .error "ValueError: invalid literal for int"
      | some idx =>
        match current with
        | .obj ckvs =>
          match objGet ckvs key with
          | .arr xs =>
            if idx < (xs.length : Int) then
              match pyListGet xs idx with
              | some v => flattenNav v rest
              | none => .error "IndexError: list index out of range"
            else flattenNav Json.null rest
          | _ => flattenNav Json.null rest
        | _ => .error "AttributeError: no attribute get"
    else
      match current with
      | .obj ckvs => flattenNav (objGet ckvs part) rest
      | _ => flattenNav Json.null rest

/-- `del d[k]` on a Python dict. -/
def objDelete (fields : List (String × Json)) (k : String) :
    List (String × Json) :=
  match fields with
  | [] => []
  | (k0, v) :: rest => if k0 = k then rest else (k0, v) :: objDelete rest k

/-- `flatten_field(obj, field_path)` (transformer_service.py): navigate to
the nested value named by the path; if it is a mapping, copy its entries
to the top level under `<firstSegment>_<key>` names and delete the
original top-level key; otherwise return the object unchanged. -/
def flatten_field (obj : Json) (field_path : String) : Except String Json :=
  match obj with
  | .obj kvs =>
    let parts := pySplit '.' field_path
    let parent_key := parts.headD ""
    match flattenNav (.obj kvs) parts with
    | .error e => .error e
    | .ok (some (.obj ckvs)) =>
      let result := ckvs.foldl
        (fun acc kv => objInsert acc (parent_key ++ "_" ++ kv.1) kv.2) kvs
      .ok (.obj (objDelete result parent_key))
    | .ok _ => .ok (.obj kvs)
  | _ => .ok obj

/-- `extract_and_rename(obj, field_path, new_name)`
(transformer_service.py): resolve the path and bind the result (possibly
`None`) under the new name. -/
def extract_and_rename (obj : Json) (field_path : String) (new_name : String) :
    List (String × Json) :=
  [(new_name, get_nested_value obj field_path)]

/-- One rule application inside `apply_transformations`
(transformer_service.py): both actions read their field path from the
ORIGINAL `resource`, and write their results into the accumulated
`transformed` mapping; a truthy non-string field raises (Python
`AttributeError` on `.split`). Rules whose `as` value is a truthy
non-string are outside this string-keyed model and map to an error. -/
def applyRule (resource : List (String × Json))
    (transformed : List (String × Json)) (rule : List (String × Json)) :
    Except String (List (String × Json)) :=
  let action := objGet rule "action"
  let field := objGet rule "field"
  if Json.beq action (.str "flatten") && field.isTruthy then
    match field with
    | .str fs =>
      match flatten_field (.obj resource) fs with
      | .error e => .error e
      | .ok flattened =>
        let seg0 := (pySplit '.' fs).headD ""
        match flattened with
        | .obj fkvs =>
          .ok (fkvs.foldl (fun acc kv =>
            if pyStartsWith kv.1 (seg0 ++ "_") then objInsert acc kv.1 kv.2 else acc)
            transformed)
        | _ => .ok transformed
    | _ => .error "AttributeError: no attribute split"
  else if Json.beq action (.str "extract") && field.isTruthy then
    match field with
    | .str fs =>
      let new_name :=
        if containsKey rule "as" then objGet rule "as"
        else Json.str ((pySplit '.' fs).getLastD "")
      match new_name with
      | .str nn =>
        .ok (objInsert transformed nn (get_nested_value (.obj resource) fs))
      | _ => .error "non-string output key"
    | _ => .error "AttributeError: no attribute split"
  else .ok transformed

/-- The per-resource rule fold inside `apply_transformations`. -/
def applyRulesLoop (resource : List (String × Json))
    (transformed : List (String × Json)) :
    List (List (String × Json)) → Except String (List (String × Json))
  | [] => .ok transformed
  | rule :: rest =>
    match applyRule resource transformed rule with
    | .error e => .error e
    | .ok t2 => applyRulesLoop resource t2 rest

/-- `apply_transformations(resources, transformations)`
(transformer_service.py): for each resource, seed a working copy with
only its `id` and `resourceType`, then fold the rules in order into it,
each rule reading from the original resource. -/
def apply_transformations :
    List (List (String × Json)) → List (List (String × Json)) →
    Except String (List (List (String × Json)))
  | [], _ => .ok []
  | resource :: rest, transformations =>
    match applyRulesLoop resource
        [("id", objGet resource "id"), ("resourceType", objGet resource "resourceType")]
        transformations with
    | .error e => .error e
    | .ok t =>
      match apply_transformations rest transformations with
      | .error e => .error e
      | .ok ts => .ok (t :: ts)

/-! Helper lemmas about the mapping primitives. -/

theorem objGet_eq_null_of_not_containsKey (r : List (String × Json)) (k : String)
    (h : containsKey r k = false) : objGet r k = Json.null := by
  induction r with
  | nil => rfl
  | cons kv rest ih =>
    obtain ⟨k0, v⟩ := kv
    simp only [containsKey, Bool.or_eq_false_iff, decide_eq_false_iff_not] at h
    simp only [objGet, if_neg h.1]
    exact ih h.2

theorem containsKey_of_objGet_ne_null (r : List (String × Json)) (k : String)
    (h : objGet r k ≠ Json.null) : containsKey r k = true := by
  cases hc : containsKey r k with
  | true => rfl
  | false => exact absurd (objGet_eq_null_of_not_containsKey r k hc) h

theorem containsKey_objInsert (r : List (String × Json)) (k f : String) (v : Json) :
    containsKey (objInsert r k v) f = (decide (k = f) || containsKey r f) := by
  induction r with
  | nil => simp [objInsert, containsKey]
  | cons kv rest ih =>
    obtain ⟨k0, v0⟩ := kv
    by_cases hk : k0 = k
    · subst hk
      simp [objInsert, containsKey]
    · simp only [objInsert, if_neg hk, containsKey, ih]
      by_cases hkf : k0 = f
      · subst hkf
        simp [fun h : k = k0 => hk h.symm]
      · simp [hkf]

/-! Claim C4: validation of a record without `resourceType`. -/

/-- C4 counterexample: on the empty record (which lacks `resourceType`,
`id` and `subject`), `validate_resource` emits three errors, not exactly
one — the universal required-field loop does not stop after the missing
`resourceType` error. -/
theorem validate_resource_empty_record_three_errors :
    containsKey ([] : List (String × Json)) "resourceType" = false ∧
    (validate_resource [] 1).length = 3 :=
  ⟨rfl, rfl⟩

/-- C4 amended: for every record in which `resourceType` is absent but
`id` and `subject` are present, validation emits exactly the one
missing-resourceType error and performs no type-specific checks. -/
theorem validate_resource_missing_resourceType_single_error
    (r : List (String × Json)) (n : Nat)
    (h1 : containsKey r "id" = true)
    (h2 : containsKey r "resourceType" = false)
    (h3 : containsKey r "subject" = true) :
    validate_resource r n = [missingFieldMsg n "resourceType"] := by
  have hrt : objGet r "resourceType" = Json.null :=
    objGet_eq_null_of_not_containsKey r "resourceType" h2
  simp [validate_resource, h1, h2, h3, hrt, Json.beq]

/-- C4 witness: the amended theorem applied to a concrete record holding
only `id` and `subject`. -/
theorem validate_resource_missing_resourceType_witness :
    containsKey [("id", Json.num 1), ("subject", Json.null)] "id" = true ∧
    containsKey [("id", Json.num 1), ("subject", Json.null)] "resourceType" = false ∧
    containsKey [("id", Json.num 1), ("subject", Json.null)] "subject" = true ∧
    validate_resource [("id", Json.num 1), ("subject", Json.null)] 7 =
      ["Line 7: Missing required field \x27resourceType\x27"] :=
  ⟨by decide, by decide, by decide,
   validate_resource_missing_resourceType_single_error _ 7 (by decide) (by decide)
     (by decide)⟩

/-! Claim C9: the validator ignores the rule table's other types. -/

/-- C9: for every record containing `id`, `resourceType` and `subject`
whose `resourceType` is a string other than `"Observation"` and
`"MedicationRequest"`, validation returns no errors, even though
`VALIDATION_RULES` configures required fields (and for `Procedure` a
status enumeration) for other types — the validator never applies them. -/
theorem validate_resource_other_types_no_errors
    (r : List (String × Json)) (n : Nat) (t : String)
    (h1 : containsKey r "id" = true)
    (h2 : containsKey r "subject" = true)
    (h3 : objGet r "resourceType" = Json.str t)
    (h4 : t ≠ "Observation") (h5 : t ≠ "MedicationRequest") :
    validate_resource r n = [] ∧
    VALIDATION_RULES.lookup "Procedure" =
      some ⟨["code", "status"], some ["completed", "active", "final"]⟩ ∧
    VALIDATION_RULES.lookup "Condition" = some ⟨["code"], none⟩ := by
  have hrt : containsKey r "resourceType" = true :=
    containsKey_of_objGet_ne_null r _ (by rw [h3]; exact fun h => Json.noConfusion h)
  refine ⟨?_, rfl, rfl⟩
  simp [validate_resource, h1, h2, hrt, h3, Json.beq, h4, h5]

/-- C9 witness: a `Procedure` record with the three universal keys but
neither `code` nor `status` validates cleanly. -/
theorem validate_resource_other_types_witness :
    containsKey [("id", Json.num 1), ("resourceType", Json.str "Procedure"),
      ("subject", Json.str "Patient/PT-1")] "id" = true ∧
    objGet [("id", Json.num 1), ("resourceType", Json.str "Procedure"),
      ("subject", Json.str "Patient/PT-1")] "resourceType" = Json.str "Procedure" ∧
    validate_resource [("id", Json.num 1), ("resourceType", Json.str "Procedure"),
      ("subject", Json.str "Patient/PT-1")] 3 = [] :=
  ⟨by decide, rfl,
   (validate_resource_other_types_no_errors
     [("id", Json.num 1), ("resourceType", Json.str "Procedure"),
      ("subject", Json.str "Patient/PT-1")] 3 "Procedure" (by decide) (by decide) rfl
     (by decide) (by decide)).1⟩

/-! Claim C10: the extractor on non-mappings and type-less inputs. -/

/-- C10: for every input that is not a mapping, or is a mapping without a
`resourceType` key, `extract_fields_from_resource` returns the empty
mapping; the embedding is a total function, so no exception escapes on
any such input. -/
theorem extract_fields_empty_on_non_mapping_or_missing_type
    (j : Json)
    (h : ∀ kvs, j = Json.obj kvs → containsKey kvs "resourceType" = false) :
    extract_fields_from_resource j = [] := by
  cases j with
  | obj kvs =>
    have hk := h kvs rfl
    have hrt : objGet kvs "resourceType" = Json.null :=
      objGet_eq_null_of_not_containsKey _ _ hk
    simp [extract_fields_from_resource, hrt, Json.isTruthy]
  | null => rfl
  | bool b => rfl
  | num n => rfl
  | str s => rfl
  | arr xs => rfl

/-- C10 witness: a mapping lacking `resourceType` extracts to the empty
mapping. -/
theorem extract_fields_empty_witness :
    (∀ kvs, Json.obj [("id", Json.num 1)] = Json.obj kvs →
      containsKey kvs "resourceType" = false) ∧
    extract_fields_from_resource (Json.obj [("id", Json.num 1)]) = [] := by
  have hh : ∀ kvs, Json.obj [("id", Json.num 1)] = Json.obj kvs →
      containsKey kvs "resourceType" = false := by
    intro kvs hk
    injection hk with h1
    rw [← h1]
    rfl
  exact ⟨hh, extract_fields_empty_on_non_mapping_or_missing_type _ hh⟩

/-! Claim C5: batch persistence is atomic. -/

theorem stageBatch_ok_length (rs : List (List (String × Json))) :
    ∀ rows, stageBatch rs = .ok rows → rows.length = rs.length := by
  induction rs with
  | nil =>
    intro rows h
    cases h
    rfl
  | cons r rest ih =>
    intro rows h
    simp only [stageBatch] at h
    cases hb : buildRow r with
    | error e => rw [hb] at h; exact Except.noConfusion h
    | ok row =>
      rw [hb] at h
      cases hs : stageBatch rest with
      | error e => rw [hs] at h; exact Except.noConfusion h
      | ok rows0 =>
        rw [hs] at h
        cases h
        simp [ih rows0 hs]

/-- C5: `save_resources_batch` is atomic: either some row construction or
the commit raises, the exception propagates and the stored table is
unchanged; or no exception propagates and the table gains exactly one new
row per batch element. -/
theorem save_resources_batch_atomic (db : List StoredRow)
    (resources : List (List (String × Json))) (commitFails : Bool) :
    (∃ e, save_resources_batch db resources commitFails = (some e, db)) ∨
    (∃ rows, stageBatch resources = .ok rows ∧ rows.length = resources.length ∧
      save_resources_batch db resources commitFails = (none, db ++ rows)) := by
  unfold save_resources_batch
  cases hs : stageBatch resources with
  | error e => exact .inl ⟨e, rfl⟩
  | ok rows =>
    cases commitFails with
    | true => exact .inl ⟨"OperationalError: commit failed", rfl⟩
    | false => exact .inr ⟨rows, rfl, stageBatch_ok_length resources rows hs, rfl⟩

/-! Claim C1: duplicate-identifier handling in the persistence batch. -/

/-- An already-stored raw record with identifier `X`. -/
def c1OldRaw : Json :=
  .obj [("id", .str "X"), ("resourceType", .str "Observation"),
        ("status", .str "preliminary")]

/-- The stored row holding `c1OldRaw`. -/
def c1OldRow : StoredRow :=
  ⟨.str "Observation", .str "Patient/PT-1", c1OldRaw, .obj []⟩

/-- A re-imported raw record with the same identifier `X` but new
content. -/
def c1NewRaw : Json :=
  .obj [("id", .str "X"), ("resourceType", .str "Observation"),
        ("status", .str "final")]

/-- The batch element carrying `c1NewRaw`. -/
def c1Batch : List (List (String × Json)) :=
  [[("resource_type", .str "Observation"),
    ("subject_reference", .str "Patient/PT-1"),
    ("raw_data", c1NewRaw),
    ("extracted_fields", .obj [("id", .str "X")])]]

/-- The row `save_resources_batch` stages for the batch element. -/
def c1NewRow : StoredRow :=
  ⟨.str "Observation", .str "Patient/PT-1", c1NewRaw, .obj [("id", .str "X")]⟩

/-- C1 counterexample: re-importing a record whose identifier `X` matches
an already-stored row does NOT overwrite that row: the old row survives
unchanged, a second row is appended, and afterwards two stored rows carry
identifier `X` — `save_resources_batch` performs no identifier
reconciliation. -/
theorem save_resources_batch_duplicate_id_inserts_second_row :
    get_nested_value c1OldRow.raw_data "id" = Json.str "X" ∧
    get_nested_value c1NewRaw "id" = Json.str "X" ∧
    save_resources_batch [c1OldRow] c1Batch false = (none, [c1OldRow, c1NewRow]) ∧
    ((save_resources_batch [c1OldRow] c1Batch false).2.filter
      (fun row => Json.beq (get_nested_value row.raw_data "id") (.str "X"))).length = 2 :=
  ⟨rfl, rfl, rfl, rfl⟩

/-- C1 amended: for every batch that stages successfully,
`save_resources_batch` appends one new row per batch element regardless of
identifier matches; existing rows are never overwritten, so the stored row
count grows by the batch size (re-importing already-stored identifiers
duplicates rows instead of updating them). -/
theorem save_resources_batch_appends_per_element (db : List StoredRow)
    (resources : List (List (String × Json))) (rows : List StoredRow)
    (h : stageBatch resources = .ok rows) :
    save_resources_batch db resources false = (none, db ++ rows) ∧
    (db ++ rows).length = db.length + resources.length := by
  constructor
  · unfold save_resources_batch
    rw [h]
    rfl
  · simp [stageBatch_ok_length resources rows h]


/-- C1 witness: the amended theorem applied to the concrete
duplicate-identifier batch. -/
theorem save_resources_batch_appends_witness :
    stageBatch c1Batch = .ok [c1NewRow] ∧
    save_resources_batch [c1OldRow] c1Batch false = (none, [c1OldRow] ++ [c1NewRow]) ∧
    ([c1OldRow] ++ [c1NewRow]).length = [c1OldRow].length + c1Batch.length :=
  ⟨rfl, (save_resources_batch_appends_per_element [c1OldRow] c1Batch [c1NewRow] rfl).1,
   (save_resources_batch_appends_per_element [c1OldRow] c1Batch [c1NewRow] rfl).2⟩

/-! Claim C6: totality and absent-cases of path resolution. -/

theorem resolveParts_null (rest : List String) :
    resolveParts Json.null rest = Json.null := by
  induction rest with
  | nil => rfl
  | cons p ps ih => simp [resolveParts, Json.isNull, ih]

theorem ne_empty_of_endsWithBracket (p : String) (h : endsWithBracket p = true) :
    p ≠ "" := by
  intro he
  subst he
  simp [endsWithBracket] at h

/-- C6: path resolution is total by construction (the embedding returns a
value on every input: every Python exception in the segment loop is caught
and folded into `None`), and resolution yields `None` in each of the
claim's cases: a `None` intermediate value, a non-numeric bracketed index,
an out-of-range bracketed index on a sequence, and a key lookup required
on a non-mapping. -/
theorem resolveParts_absent_cases (cur : Json) (p : String) (rest : List String)
    (h : cur.isNull = true
      ∨ (endsWithBracket p = true ∧ pyInt (p.dropRight 1) = none)
      ∨ (∃ idx xs, endsWithBracket p = true ∧ pyInt (p.dropRight 1) = some idx ∧
          cur = Json.arr xs ∧
          ((xs.length : Int) ≤ idx ∨ idx < -(xs.length : Int)))
      ∨ (p ≠ "" ∧ endsWithBracket p = false ∧ cur.isNull = false ∧
          ∀ kvs, cur ≠ Json.obj kvs)) :
    resolveParts cur (p :: rest) = Json.null := by
  rcases h with h | ⟨h1, h2⟩ | ⟨idx, xs, h1, h2, h3, h4⟩ | ⟨h1, h2, h3, h4⟩
  · have hc : cur = Json.null := by
      cases cur <;> simp [Json.isNull] at h <;> rfl
    subst hc
    simp [resolveParts, Json.isNull, resolveParts_null]
  · have hp := ne_empty_of_endsWithBracket p h1
    by_cases hn : cur.isNull = true
    · have hc : cur = Json.null := by
        cases cur <;> simp [Json.isNull] at hn <;> rfl
      subst hc
      simp [resolveParts, Json.isNull, resolveParts_null]
    · have hf : cur.isNull = false := by revert hn; cases cur.isNull <;> simp
      simp [resolveParts, hp, hf, h1, h2]
  · subst h3
    have hp := ne_empty_of_endsWithBracket p h1
    have hlen : (0 : Int) ≤ (xs.length : Int) := Int.natCast_nonneg _
    rcases h4 with h4 | h4
    · simp [resolveParts, hp, Json.isNull, h1, h2, resolveParts_null,
        if_neg (by omega : ¬ idx < (xs.length : Int))]
    · have hlt : idx < (xs.length : Int) := by omega
      have hget : pyListGet xs idx = none := by
        unfold pyListGet
        rw [if_neg (by omega : ¬ (0 : Int) ≤ idx),
          if_neg (by omega : ¬ (0 : Int) ≤ (xs.length : Int) + idx)]
      simp [resolveParts, hp, Json.isNull, h1, h2, hlt, hget]
  · cases cur with
    | null => simp [Json.isNull] at h3
    | obj kvs => exact absurd rfl (h4 kvs)
    | bool b => simp [resolveParts, h1, h2, Json.isNull]
    | num n => simp [resolveParts, h1, h2, Json.isNull]
    | str s => simp [resolveParts, h1, h2, Json.isNull]
    | arr xs => simp [resolveParts, h1, h2, Json.isNull]

/-- C6 witness: an out-of-range bracketed index on a one-element sequence
resolves to `None`. -/
theorem resolveParts_absent_witness :
    (endsWithBracket "5]" = true ∧ pyInt ("5]".dropRight 1) = some 5 ∧
      (((Json.num 1) :: []).length : Int) ≤ 5) ∧
    resolveParts (Json.arr [Json.num 1]) ["5]"] = Json.null :=
  ⟨⟨rfl, rfl, by decide⟩,
   resolveParts_absent_cases (Json.arr [Json.num 1]) "5]" []
     (.inr (.inr (.inl ⟨5, [Json.num 1], rfl, rfl, rfl, .inl (by decide)⟩)))⟩

/-! Claim C3: rule chaining in the transform engine. -/

/-- A source record with a nested `valueQuantity.value`. -/
def c3Resource : List (String × Json) :=
  [("id", .num 1), ("resourceType", .str "Observation"),
   ("valueQuantity", .obj [("value", .num 120)])]

/-- Two extract rules where the second rule's field path names the key
produced by the first. -/
def c3Rules : List (List (String × Json)) :=
  [[("action", .str "extract"), ("field", .str "valueQuantity.value"),
    ("as", .str "reading")],
   [("action", .str "extract"), ("field", .str "reading"), ("as", .str "copy")]]

/-- C3 counterexample: the second rule's field path `reading` — a key
produced by the first rule — resolves to `None`, not to the first rule's
output `120`, even though resolving `reading` against the working copy
built by the first rule would find `120`: each rule reads the original
source record. -/
theorem apply_transformations_second_rule_reads_source :
    apply_transformations [c3Resource] c3Rules =
      .ok [[("id", .num 1), ("resourceType", .str "Observation"),
            ("reading", .num 120), ("copy", Json.null)]] ∧
    get_nested_value (.obj [("id", .num 1), ("resourceType", .str "Observation"),
      ("reading", .num 120)]) "reading" = .num 120 ∧
    Json.null ≠ Json.num 120 :=
  ⟨rfl, rfl, fun h => Json.noConfusion h⟩

/-- C3 amended: the TransformEngine applies the rules in the
caller-specified order, accumulating each rule's bindings into a working
copy seeded with only the source record's `id` and `resourceType`, but
each rule's field path resolves against the ORIGINAL source record: for
two chained extract rules, the second binding is
`get_nested_value` of the source at its field path, not a lookup in the
first rule's output. -/
theorem apply_transformations_rules_read_original (r : List (String × Json))
    (f a b : String) (hf : f ≠ "") (ha : a ≠ "") :
    apply_transformations [r]
      [[("action", .str "extract"), ("field", .str f), ("as", .str a)],
       [("action", .str "extract"), ("field", .str a), ("as", .str b)]] =
      .ok [objInsert (objInsert
        [("id", objGet r "id"), ("resourceType", objGet r "resourceType")]
        a (get_nested_value (.obj r) f))
        b (get_nested_value (.obj r) a)] := by
  simp [apply_transformations, applyRulesLoop, applyRule, objGet, containsKey,
    Json.beq, Json.isTruthy, hf, ha]

/-- C3 witness: the amended theorem applied to the concrete record and
rule chain of the counterexample. -/
theorem apply_transformations_rules_read_original_witness :
    ("valueQuantity.value" ≠ "" ∧ "reading" ≠ "") ∧
    apply_transformations [c3Resource] c3Rules =
      .ok [objInsert (objInsert
        [("id", objGet c3Resource "id"),
         ("resourceType", objGet c3Resource "resourceType")]
        "reading" (get_nested_value (.obj c3Resource) "valueQuantity.value"))
        "copy" (get_nested_value (.obj c3Resource) "reading")] :=
  ⟨⟨by decide, by decide⟩,
   apply_transformations_rules_read_original c3Resource "valueQuantity.value"
     "reading" "copy" (by decide) (by decide)⟩

/-! Claim C8: the projection inclusion criterion. -/

theorem mem_projectStep (r acc : List (String × Json)) (g f : String) :
    containsKey (projectStep r acc g) f = true ↔
      (containsKey acc f = true ∨
        (pyStrip g = f ∧ f ≠ "" ∧
          ((get_nested_value (.obj r) f).isNull = false ∨
            containsKey r f = true))) := by
  simp only [projectStep]
  split_ifs with h1 h2 h3
  · constructor
    · exact Or.inl
    · rintro (h | ⟨hgf, hne, _⟩)
      · exact h
      · exact absurd (hgf.symm.trans h1) hne
  · simp only [containsKey_objInsert, Bool.or_eq_true, decide_eq_true_eq]
    by_cases hgf : pyStrip g = f
    · subst hgf
      have hq : (get_nested_value (.obj r) (pyStrip g)).isNull = false := by
        revert h2; cases (get_nested_value (.obj r) (pyStrip g)).isNull <;> simp
      tauto
    · tauto
  · simp only [containsKey_objInsert, Bool.or_eq_true, decide_eq_true_eq]
    by_cases hgf : pyStrip g = f
    · subst hgf
      tauto
    · tauto
  · by_cases hgf : pyStrip g = f
    · subst hgf
      have hq : (get_nested_value (.obj r) (pyStrip g)).isNull = true := by
        revert h2; cases (get_nested_value (.obj r) (pyStrip g)).isNull <;> simp
      have hck : containsKey r (pyStrip g) ≠ true := h3
      constructor
      · exact Or.inl
      · rintro (h | ⟨_, _, hcv | hc⟩)
        · exact h
        · rw [hq] at hcv; exact absurd hcv (by simp)
        · exact absurd hc hck
    · constructor
      · exact Or.inl
      · rintro (h | ⟨hs, _, _⟩)
        · exact h
        · exact absurd hs hgf

theorem mem_proj_foldl (r : List (String × Json)) (fs : List String)
    (acc : List (String × Json)) (f : String) :
    containsKey (fs.foldl (projectStep r) acc) f = true ↔
      (containsKey acc f = true ∨
        ((∃ g, g ∈ fs ∧ pyStrip g = f) ∧ f ≠ "" ∧
          ((get_nested_value (.obj r) f).isNull = false ∨
            containsKey r f = true))) := by
  induction fs generalizing acc with
  | nil => simp
  | cons g gs ih =>
    rw [List.foldl_cons, ih, mem_projectStep]
    constructor
    · rintro ((h | h) | ⟨⟨g0, hg0, hs⟩, rest⟩)
      · exact Or.inl h
      · exact Or.inr ⟨⟨g, by simp, h.1⟩, h.2.1, h.2.2⟩
      · exact Or.inr ⟨⟨g0, by simp [hg0], hs⟩, rest⟩
    · rintro (h | ⟨⟨g0, hg0, hs⟩, hne, hcond⟩)
      · exact Or.inl (Or.inl h)
      · rcases List.mem_cons.mp hg0 with hg | hg
        · subst hg
          exact Or.inl (Or.inr ⟨hs, hne, hcond⟩)
        · exact Or.inr ⟨⟨g0, hg, hs⟩, hne, hcond⟩

/-- C8: for every record mapping and non-empty requested field list, a
requested (non-blank, whitespace-free) field name is a key of
`project_fields`'s output if and only if path resolution finds a
non-`None` value for it or the name is a literal top-level key of the
record (so explicitly null top-level fields are included). -/
theorem project_fields_requested_key_iff (r : List (String × Json))
    (fs : List String) (f : String) (hne : fs ≠ []) (hmem : f ∈ fs)
    (hstrip : pyStrip f = f) (hf : f ≠ "") :
    containsKey (project_fields r fs) f =
      (!(get_nested_value (.obj r) f).isNull || containsKey r f) := by
  unfold project_fields
  rw [if_neg (by
    cases fs with
    | nil => exact absurd rfl hne
    | cons a as => simp)]
  by_cases hr : r.isEmpty = true
  · have hr0 : r = [] := by
      cases r with
      | nil => rfl
      | cons a as => simp at hr
    subst hr0
    simp [get_nested_value, Json.isTruthy, Json.isNull, containsKey]
  · rw [if_neg hr]
    have hiff := mem_proj_foldl r fs [] f
    have h0 : containsKey ([] : List (String × Json)) f = false := rfl
    rw [h0] at hiff
    simp only [Bool.false_eq_true, false_or] at hiff
    have hex : ∃ g, g ∈ fs ∧ pyStrip g = f := ⟨f, hmem, hstrip⟩
    cases hb : (!(get_nested_value (.obj r) f).isNull || containsKey r f) with
    | true =>
      refine hiff.mpr ⟨hex, hf, ?_⟩
      have hb2 : (get_nested_value (.obj r) f).isNull = false ∨
          containsKey r f = true := by
        revert hb
        cases (get_nested_value (.obj r) f).isNull <;>
          cases containsKey r f <;> simp
      exact hb2
    | false =>
      cases hc : containsKey (fs.foldl (projectStep r) []) f with
      | false => rfl
      | true =>
        obtain ⟨_, _, hcond⟩ := hiff.mp hc
        rcases hcond with hcv | hck
        · rw [hcv] at hb
          simp at hb
        · rw [hck] at hb
          simp at hb

/-- C8 witness: the inclusion criterion applied to a record with a nested
`code.text` and an explicitly null top-level `note`, requesting `note`. -/
theorem project_fields_requested_key_witness :
    (["code.text", "note"] ≠ ([] : List String) ∧ "note" ∈ ["code.text", "note"] ∧
      pyStrip "note" = "note" ∧ "note" ≠ "") ∧
    containsKey (project_fields
      [("code", Json.obj [("text", Json.str "x")]), ("note", Json.null)]
      ["code.text", "note"]) "note" =
      (!(get_nested_value (Json.obj
          [("code", Json.obj [("text", Json.str "x")]), ("note", Json.null)])
          "note").isNull ||
        containsKey [("code", Json.obj [("text", Json.str "x")]),
          ("note", Json.null)] "note") :=
  ⟨⟨by decide, by decide, rfl, by decide⟩,
   project_fields_requested_key_iff
     [("code", Json.obj [("text", Json.str "x")]), ("note", Json.null)]
     ["code.text", "note"] "note" (by decide) (by decide) rfl (by decide)⟩

/-! Claim C2: subject denormalization. -/

theorem containsKey_extract_foldl (kvs : List (String × Json))
    (fields : List String) (acc : List (String × Json)) (f : String)
    (hnf : f ∉ fields) (hna : containsKey acc f = false) :
    containsKey (fields.foldl (extractStep kvs) acc) f = false := by
  induction fields generalizing acc with
  | nil => exact hna
  | cons g gs ih =>
    rw [List.foldl_cons]
    have hg : ¬ g = f := fun hgf => hnf (hgf ▸ List.mem_cons_self g gs)
    refine ih (extractStep kvs acc g) (fun hin => hnf (List.mem_cons_of_mem g hin)) ?_
    simp only [extractStep]
    split_ifs <;> simp [containsKey_objInsert, hg, hna]

theorem mem_get_extractable_fields (rt : Json) (f : String)
    (h : f ∈ get_extractable_fields rt) : f ∈ EXTRACTION_CONFIG.map Prod.fst := by
  unfold get_extractable_fields at h
  rcases List.mem_map.mp h with ⟨e, he, rfl⟩
  exact List.mem_map.mpr ⟨e, (List.mem_filter.mp he).1, rfl⟩

theorem extracted_no_derived_keys (j : Json) (f : String)
    (hf : f ∉ EXTRACTION_CONFIG.map Prod.fst) :
    containsKey (extract_fields_from_resource j) f = false := by
  cases j with
  | obj kvs =>
    simp only [extract_fields_from_resource]
    split
    · rfl
    · exact containsKey_extract_foldl kvs _ [] f
        (fun hin => hf (mem_get_extractable_fields _ f hin)) rfl
  | null => rfl
  | bool b => rfl
  | num n => rfl
  | str s => rfl
  | arr xs => rfl

theorem process_resource_ok_spec (kvs : List (String × Json)) (n : Nat)
    (p : ProcessedResource) (h : process_resource kvs n = .ok p) :
    p.extracted_fields = extract_fields_from_resource (.obj kvs) ∧
    p.subject_reference =
      (match objGet (extract_fields_from_resource (.obj kvs)) "subject" with
       | .obj skvs => objGet skvs "reference"
       | _ => get_nested_value (.obj kvs) "subject.reference") := by
  simp only [process_resource] at h
  split at h
  · exact Except.noConfusion h
  · split at h
    · exact Except.noConfusion h
    · cases h
      exact ⟨rfl, rfl⟩

/-- A record whose `subject` is a mapping carrying both `reference` and
`display`. -/
def c2Record : List (String × Json) :=
  [("resourceType", .str "Observation"),
   ("subject", .obj [("reference", .str "Patient/PT-9"),
                     ("display", .str "Jane Doe")])]

/-- C2 counterexample: the Extractor's output for `c2Record` carries the
`subject` mapping unchanged and contains NEITHER `subject_reference` NOR
`subject_display`, although `subject` was extracted as a mapping with
both members present. -/
theorem extractor_no_subject_derived_fields :
    objGet (extract_fields_from_resource (.obj c2Record)) "subject" =
      .obj [("reference", .str "Patient/PT-9"), ("display", .str "Jane Doe")] ∧
    containsKey (extract_fields_from_resource (.obj c2Record))
      "subject_reference" = false ∧
    containsKey (extract_fields_from_resource (.obj c2Record))
      "subject_display" = false :=
  ⟨rfl, rfl, rfl⟩

/-- C2 amended: when the extracted `subject` is a mapping, the
extracted-fields mapping never contains `subject_reference` or
`subject_display` keys; `process_resource` separately reports the
mapping's `reference` member as the run-level `subject_reference` (no
`subject_display` is derived anywhere). -/
theorem extractor_subject_not_denormalized (kvs skvs : List (String × Json))
    (n : Nat) (p : ProcessedResource)
    (h1 : objGet (extract_fields_from_resource (.obj kvs)) "subject" = .obj skvs)
    (h2 : process_resource kvs n = .ok p) :
    containsKey (extract_fields_from_resource (.obj kvs)) "subject_reference" = false ∧
    containsKey (extract_fields_from_resource (.obj kvs)) "subject_display" = false ∧
    p.subject_reference = objGet skvs "reference" ∧
    containsKey p.extracted_fields "subject_reference" = false ∧
    containsKey p.extracted_fields "subject_display" = false := by
  have hr : containsKey (extract_fields_from_resource (.obj kvs))
      "subject_reference" = false :=
    extracted_no_derived_keys _ _ (by decide)
  have hd : containsKey (extract_fields_from_resource (.obj kvs))
      "subject_display" = false :=
    extracted_no_derived_keys _ _ (by decide)
  obtain ⟨he, hs⟩ := process_resource_ok_spec kvs n p h2
  refine ⟨hr, hd, ?_, he ▸ hr, he ▸ hd⟩
  rw [hs, h1]

/-- The value `process_resource` computes for `c2Record` at line 1. -/
def c2Processed : ProcessedResource :=
  ⟨[("resourceType", .str "Observation"),
    ("subject", .obj [("reference", .str "Patient/PT-9"),
                      ("display", .str "Jane Doe")])],
   .str "Observation", .str "unknown-1", .str "PT-9", .str "Patient/PT-9",
   some (1, "effectiveDateTime",
     "Observation missing optional field effectiveDateTime")⟩

/-- C2 witness: the amended theorem applied to `c2Record`. -/
theorem extractor_subject_not_denormalized_witness :
    objGet (extract_fields_from_resource (.obj c2Record)) "subject" =
      .obj [("reference", .str "Patient/PT-9"), ("display", .str "Jane Doe")] ∧
    process_resource c2Record 1 = .ok c2Processed ∧
    (containsKey (extract_fields_from_resource (.obj c2Record))
        "subject_reference" = false ∧
      containsKey (extract_fields_from_resource (.obj c2Record))
        "subject_display" = false ∧
      c2Processed.subject_reference =
        objGet [("reference", .str "Patient/PT-9"),
                ("display", .str "Jane Doe")] "reference" ∧
      containsKey c2Processed.extracted_fields "subject_reference" = false ∧
      containsKey c2Processed.extracted_fields "subject_display" = false) :=
  ⟨rfl, rfl,
   extractor_subject_not_denormalized c2Record
     [("reference", .str "Patient/PT-9"), ("display", .str "Jane Doe")]
     1 c2Processed rfl rfl⟩

/-! Claim C7: the five-line import run summary. -/

/-- C7: for an import run over five non-blank lines where line 3 fails
JSON decoding, line 4 fails validation, and lines 1, 2 and 5 parse to
records that validate cleanly and process without exception, the run
summary reports `total_lines = 5`, `successful = 3`, `failed = 2`, and
the error list holds exactly a line-3 `parse_error` and a line-4
`validation_error`. -/
theorem import_run_five_lines (loads : String → Except String Json)
    (content l1 l2 l3 l4 l5 : String)
    (r1 r2 r4 r5 : List (String × Json)) (e : String)
    (p1 p2 p5 : ProcessedResource)
    (hsplit : pySplit '\n' (pyStrip content) = [l1, l2, l3, l4, l5])
    (hb1 : pyStrip l1 ≠ "") (hb2 : pyStrip l2 ≠ "") (hb3 : pyStrip l3 ≠ "")
    (hb4 : pyStrip l4 ≠ "") (hb5 : pyStrip l5 ≠ "")
    (hl1 : loads l1 = .ok (.obj r1)) (hv1 : validate_resource r1 1 = [])
    (hp1 : process_resource r1 1 = .ok p1)
    (hl2 : loads l2 = .ok (.obj r2)) (hv2 : validate_resource r2 2 = [])
    (hp2 : process_resource r2 2 = .ok p2)
    (hl3 : loads l3 = .error e)
    (hl4 : loads l4 = .ok (.obj r4)) (hv4 : validate_resource r4 4 ≠ [])
    (hl5 : loads l5 = .ok (.obj r5)) (hv5 : validate_resource r5 5 = [])
    (hp5 : process_resource r5 5 = .ok p5) :
    (import_fhir_data loads content).map
      (fun st => (st.total_lines, st.successful, st.failed,
        st.validation_errors, st.validation_errors.map ImportErrorEntry.tag)) =
      .ok (5, 3, 2,
        [.parseErr 3 ("Invalid JSON: " ++ e),
         .validationErr 4 (validate_resource r4 4)],
        ["parse_error", "validation_error"]) := by
  have hv4e : (validate_resource r4 4).isEmpty = false := by
    cases hc : validate_resource r4 4 with
    | nil => exact absurd hc hv4
    | cons a as => rfl
  have hparse : parse_jsonl_file loads content =
      [(1, .obj r1, none), (2, .obj r2, none),
       (3, Json.null, some ("Invalid JSON: " ++ e)),
       (4, .obj r4, none), (5, .obj r5, none)] := by
    unfold parse_jsonl_file
    rw [hsplit]
    simp [List.enum, List.enumFrom, hb1, hb2, hb3, hb4, hb5,
      hl1, hl2, hl3, hl4, hl5]
  unfold import_fhir_data
  rw [hparse]
  simp [importLoop, importStep, initImportState, Json.isNull, Except.map,
    hv1, hv2, hv4e, hv5, hp1, hp2, hp5, ImportErrorEntry.tag]

/-- A valid Observation line payload with the given identifier. -/
def c7rec (idv : String) : List (String × Json) :=
  [("id", .str idv), ("resourceType", .str "Observation"),
   ("subject", .obj [("reference", .str "Patient/PT-1")]),
   ("code", .obj [("text", .str "BP")]),
   ("status", .str "final"), ("effectiveDateTime", .str "2024-01-01")]

/-- The value `process_resource` computes for `c7rec idv` on any of the
witness run's valid lines. -/
def c7proc (idv : String) : ProcessedResource :=
  ⟨[("id", .str idv), ("resourceType", .str "Observation"),
    ("subject", .obj [("reference", .str "Patient/PT-1")]),
    ("code", .obj [("text", .str "BP")]),
    ("status", .str "final"), ("effectiveDateTime", .str "2024-01-01")],
   .str "Observation", .str idv, .str "PT-1", .str "Patient/PT-1", none⟩

/-- A record that fails validation (missing `id`, `subject`, `code` and
`status`). -/
def c7Bad : List (String × Json) := [("resourceType", .str "Observation")]

/-- A concrete `json.loads` table for the witness run's five lines. -/
def c7Loads : String → Except String Json := fun s =>
  if s = "A" then .ok (.obj (c7rec "obs-1"))
  else if s = "B" then .ok (.obj (c7rec "obs-2"))
  else if s = "C" then .error "Expecting value"
  else if s = "D" then .ok (.obj c7Bad)
  else if s = "E" then .ok (.obj (c7rec "obs-5"))
  else .error "unknown line"

/-- The witness run's five-line input. -/
def c7Content : String := "A\nB\nC\nD\nE"

/-- C7 witness: the five-line theorem applied to a concrete run whose
line 3 fails decoding and whose line 4 fails validation. -/
theorem import_run_five_lines_witness :
    (pySplit '\n' (pyStrip c7Content) = ["A", "B", "C", "D", "E"] ∧
      c7Loads "C" = .error "Expecting value" ∧
      validate_resource (c7rec "obs-1") 1 = [] ∧
      validate_resource c7Bad 4 ≠ []) ∧
    (import_fhir_data c7Loads c7Content).map
      (fun st => (st.total_lines, st.successful, st.failed,
        st.validation_errors, st.validation_errors.map ImportErrorEntry.tag)) =
      .ok (5, 3, 2,
        [.parseErr 3 ("Invalid JSON: " ++ "Expecting value"),
         .validationErr 4 (validate_resource c7Bad 4)],
        ["parse_error", "validation_error"]) :=
  ⟨⟨rfl, rfl, rfl, by decide⟩,
   import_run_five_lines c7Loads c7Content "A" "B" "C" "D" "E"
     (c7rec "obs-1") (c7rec "obs-2") c7Bad (c7rec "obs-5") "Expecting value"
     (c7proc "obs-1") (c7proc "obs-2") (c7proc "obs-5")
     rfl (by decide) (by decide) (by decide) (by decide) (by decide)
     rfl rfl rfl rfl rfl rfl rfl rfl (by decide) rfl rfl rfl⟩
